import Mathlib

/-!
Verification of the calendar-categorizer script (`commenda_cc.py`).

The script fetches Google Calendar events for a date range, classifies each
event with a Gemini call, maps the category to a color id, patches the event
color (skipping working-location events, swallowing patch errors), records a
result row per event, and can later revert colors from the recorded rows.

We embed the decision logic shallowly: external effects (the Gemini call, the
patch call, the fetch) are parameters of the run function, and the run
produces a trace of the calls it issues together with the result rows.
-/

namespace CommendaCC

/-- Python `str.lower()` (ASCII case mapping), applied characterwise. -/
def pyLower (s : String) : String := ⟨s.data.map Char.toLower⟩

/-- Python `str.strip()`: drop leading and trailing whitespace. -/
def pyStrip (s : String) : String :=
  ⟨((s.data.dropWhile Char.isWhitespace).reverse.dropWhile Char.isWhitespace).reverse⟩

/-- The static category table, in the script's insertion order:
`CATEGORIES = {"1": "Client", "2": "Team", "5": "One-on-One", "6": "Personal", "11": "Other"}`. -/
def CATEGORIES : List (String × String) :=
  [("1", "Client"), ("2", "Team"), ("5", "One-on-One"), ("6", "Personal"), ("11", "Other")]

/-- Function `category_to_color_id`: first case-insensitive match over the table,
defaulting to `"11"` ("Other"). -/
def category_to_color_id (category : String) : String :=
  match CATEGORIES.find? (fun p => pyLower p.2 == pyLower category) with
  | some p => p.1
  | none => "11"

/-- Outcome of one external Gemini `generate_content` call: either a raw
response text or a raised exception. -/
inductive GeminiOutcome where
  | ok (text : String)
  | err
deriving DecidableEq, Repr

/-- Function `categorize_with_gemini`: on success returns `response.text.strip()`;
any exception is caught and the literal fallback `"Other"` is returned. -/
def categorize_with_gemini (outcome : GeminiOutcome) : String :=
  match outcome with
  | .ok t => pyStrip t
  | .err => "Other"

/-- The `start`/`end` sub-record of a fetched event: a `dateTime` or `date` key. -/
structure EventTime where
  dateTime : Option String
  date : Option String
deriving DecidableEq, Repr

/-- A fetched calendar event, as the loop reads it: `id` is accessed by
subscript (required); `summary`, `description`, `eventType` and `colorId`
are read with `.get` and may be absent. -/
structure Event where
  id : String
  summary : Option String
  description : Option String
  start : EventTime
  «end» : EventTime
  eventType : Option String
  colorId : Option String
deriving DecidableEq, Repr

/-- One row of `output_data` (hence of the session `df`). -/
structure Row where
  eventId : String
  title : String
  description : String
  start : Option String
  «end» : Option String
  category : String
  prevColorId : String
  skipped : String
deriving DecidableEq, Repr

/-- One issued `events().patch` call: the event id and the `colorId` body. -/
structure PatchCall where
  eventId : String
  colorId : String
deriving DecidableEq, Repr

/-- The row the loop appends for one event given the category the
categorizer returned. -/
def mkRow (e : Event) (category : String) : Row :=
  { eventId := e.id
    title := pyStrip (e.summary.getD "")
    description := pyStrip (e.description.getD "")
    start := e.start.dateTime.orElse (fun _ => e.start.date)
    «end» := e.«end».dateTime.orElse (fun _ => e.«end».date)
    category := category
    prevColorId := e.colorId.getD "None"
    skipped := if e.eventType == some "workingLocation" then "Yes" else "No" }

/-- The operator-visible error message `categorize_with_gemini` emits on a
raised call (line 110): one message per failed call, none on success. The
interpolated exception text is not modeled; the fixed prefix is recorded. -/
def geminiErrorOf (outcome : GeminiOutcome) : Option String :=
  match outcome with
  | .ok _ => none
  | .err => some "❌ Gemini API error"

/-- Accumulated output of the categorize-and-write-back loop, including the
per-item error messages surfaced by failed Gemini calls. -/
structure LoopOut where
  rows : List Row
  patches : List PatchCall
  geminiCalls : List (String × String)
  skippedWL : Nat
  errors : List String
deriving DecidableEq, Repr

/-- The per-event loop of `main`: for the event at index `i`, strip title and
description, call Gemini (outcome given by `gem i`), map the category, append
the row; a working-location event increments the skip counter and issues no
patch; otherwise one patch call is issued, and a patch failure (`pf i`) is
caught by `except Exception: pass`. A failed Gemini call surfaces its error
message (the `st.error` inside `categorize_with_gemini`) before the fallback
category is used. -/
def processEvents (gem : Nat → GeminiOutcome) (pf : Nat → Bool) :
    List Event → Nat → LoopOut
  | [], _ => ⟨[], [], [], 0, []⟩
  | e :: rest, i =>
    let title := pyStrip (e.summary.getD "")
    let description := pyStrip (e.description.getD "")
    let is_working_location := e.eventType == some "workingLocation"
    let category := categorize_with_gemini (gem i)
    let color_id := category_to_color_id category
    let row := mkRow e category
    let tail := processEvents gem pf rest (i + 1)
    if is_working_location then
      { rows := row :: tail.rows
        patches := tail.patches
        geminiCalls := (title, description) :: tail.geminiCalls
        skippedWL := tail.skippedWL + 1
        errors := (geminiErrorOf (gem i)).toList ++ tail.errors }
    else
      match (if pf i then Except.error () else Except.ok () : Except Unit Unit) with
      | .ok _ =>
        { rows := row :: tail.rows
          patches := ⟨e.id, color_id⟩ :: tail.patches
          geminiCalls := (title, description) :: tail.geminiCalls
          skippedWL := tail.skippedWL
          errors := (geminiErrorOf (gem i)).toList ++ tail.errors }
      | .error _ =>
        { rows := row :: tail.rows
          patches := ⟨e.id, color_id⟩ :: tail.patches
          geminiCalls := (title, description) :: tail.geminiCalls
          skippedWL := tail.skippedWL
          errors := (geminiErrorOf (gem i)).toList ++ tail.errors }

/-- The revert loop: for each row of the stored `df`, when
`row["Previous Color ID"] != "None"` one patch call restoring that color is
issued; a patch failure (`pf i`) is caught by `except Exception: continue`.
Returns the list of issued patch calls in row order. -/
def revertColors (pf : Nat → Bool) : List Row → Nat → List PatchCall
  | [], _ => []
  | r :: rest, i =>
    if r.prevColorId != "None" then
      match (if pf i then Except.error () else Except.ok () : Except Unit Unit) with
      | .ok _ => ⟨r.eventId, r.prevColorId⟩ :: revertColors pf rest (i + 1)
      | .error _ => ⟨r.eventId, r.prevColorId⟩ :: revertColors pf rest (i + 1)
    else
      revertColors pf rest (i + 1)

/-- A calendar date, as Python's `datetime.date` (compared lexicographically). -/
structure Date where
  year : Nat
  month : Nat
  day : Nat
deriving DecidableEq, Repr

/-- Python `date.__gt__` via the lexicographic order on (year, month, day):
`dateLtb a b` is `a < b`. -/
def dateLtb (a b : Date) : Bool :=
  a.year < b.year ||
    (a.year == b.year && (a.month < b.month || (a.month == b.month && a.day < b.day)))

/-- A time of day, as Python's `datetime.time`. -/
structure Time where
  hour : Nat
  minute : Nat
  second : Nat
  microsecond : Nat
deriving DecidableEq, Repr

/-- Python `datetime.time.min` = 00:00:00. -/
def Time.pyMin : Time := ⟨0, 0, 0, 0⟩

/-- Python `datetime.time.max` = 23:59:59.999999. -/
def Time.pyMax : Time := ⟨23, 59, 59, 999999⟩

/-- Zero-pad the decimal rendering of `n` to width `w`. -/
def padNum (w : Nat) (n : Nat) : String :=
  let s := toString n
  String.pushn "" '0' (w - s.length) ++ s

/-- Python `date.isoformat()`: `YYYY-MM-DD`. -/
def dateIsoformat (d : Date) : String :=
  padNum 4 d.year ++ "-" ++ padNum 2 d.month ++ "-" ++ padNum 2 d.day

/-- Python `time.isoformat()`: `HH:MM:SS`, with `.ffffff` appended only when the
microsecond field is nonzero. -/
def timeIsoformat (t : Time) : String :=
  padNum 2 t.hour ++ ":" ++ padNum 2 t.minute ++ ":" ++ padNum 2 t.second ++
    (if t.microsecond == 0 then "" else "." ++ padNum 6 t.microsecond)

/-- Python `datetime.combine(d, t).isoformat()`. -/
def combineIsoformat (d : Date) (t : Time) : String :=
  dateIsoformat d ++ "T" ++ timeIsoformat t

/-- The lower bound string: `datetime.combine(start_date, time.min).isoformat()` with a `Z` appended. -/
def start_iso (d : Date) : String :=
  combineIsoformat d Time.pyMin ++ "Z"

/-- The upper bound string: `datetime.combine(end_date, time.max).isoformat()` with a `Z` appended. -/
def end_iso (d : Date) : String :=
  combineIsoformat d Time.pyMax ++ "Z"

/-- The parameters of the one `events().list` call `main` issues. -/
structure FetchParams where
  calendarId : String
  timeMin : String
  timeMax : String
  singleEvents : Bool
  orderBy : String
deriving DecidableEq, Repr

/-- Outcome of the `events().list(...).execute()` call: an item list or a
raised `HttpError`. -/
inductive FetchOutcome where
  | ok (events : List Event)
  | httpError (msg : String)
deriving DecidableEq, Repr

/-- The observable trace of one fetch-and-categorize action. -/
structure RunOut where
  errors : List String
  warnings : List String
  fetchCalls : List FetchParams
  geminiCalls : List (String × String)
  rows : List Row
  patches : List PatchCall
  skippedWL : Nat
deriving DecidableEq, Repr

/-- The fetch-and-categorize action of `main`, from the date-range check to
the end of the loop: reject `start_date > end_date` before any network call;
otherwise issue the list call with the computed ISO bounds; abort on
`HttpError`; warn on an empty item list; otherwise run the per-event loop. -/
def run (start_date end_date : Date) (fetch : FetchOutcome)
    (gem : Nat → GeminiOutcome) (pf : Nat → Bool) : RunOut :=
  if dateLtb end_date start_date then
    { errors := ["🚫 Start date must be before end date."], warnings := []
      fetchCalls := [], geminiCalls := [], rows := [], patches := [], skippedWL := 0 }
  else
    let fp : FetchParams :=
      { calendarId := "primary", timeMin := start_iso start_date
        timeMax := end_iso end_date, singleEvents := true, orderBy := "startTime" }
    match fetch with
    | .httpError msg =>
      { errors := ["❌ Google API error: " ++ msg], warnings := []
        fetchCalls := [fp], geminiCalls := [], rows := [], patches := [], skippedWL := 0 }
    | .ok events =>
      if events.isEmpty then
        { errors := [], warnings := ["No events found in this date range."]
          fetchCalls := [fp], geminiCalls := [], rows := [], patches := [], skippedWL := 0 }
      else
        let out := processEvents gem pf events 0
        { errors := out.errors, warnings := [], fetchCalls := [fp]
          geminiCalls := out.geminiCalls, rows := out.rows
          patches := out.patches, skippedWL := out.skippedWL }

/-! ### Characterizations of the loops -/

/-- Whether the loop treats an event as a working-location marker. -/
def isWorkingLocation (e : Event) : Bool :=
  e.eventType == some "workingLocation"

/-- The row the loop produces for the indexed event `p`. -/
def rowOf (gem : Nat → GeminiOutcome) (p : Nat × Event) : Row :=
  mkRow p.2 (categorize_with_gemini (gem p.1))

/-- The patch call (if any) the loop issues for the indexed event `p`. -/
def patchOf (gem : Nat → GeminiOutcome) (p : Nat × Event) : Option PatchCall :=
  if isWorkingLocation p.2 then none
  else some ⟨p.2.id, category_to_color_id (categorize_with_gemini (gem p.1))⟩

/-- The (title, description) pair sent to the categorizer for event `e`. -/
def gcallOf (e : Event) : String × String :=
  (pyStrip (e.summary.getD ""), pyStrip (e.description.getD ""))

/-- The patch call (if any) the revert loop issues for one stored row. -/
def revertPatchOf (r : Row) : Option PatchCall :=
  if r.prevColorId == "None" then none else some ⟨r.eventId, r.prevColorId⟩

/-- The loop state is exactly: one row per event in order, one patch call per
non-working-location event in order, one categorizer call per event, a skip
count of the working-location events, and one surfaced error message per
failed Gemini call in order. -/
theorem processEvents_eq (gem : Nat → GeminiOutcome) (pf : Nat → Bool) :
    ∀ (evs : List Event) (i : Nat),
      processEvents gem pf evs i =
        { rows := (List.enumFrom i evs).map (rowOf gem)
          patches := (List.enumFrom i evs).filterMap (patchOf gem)
          geminiCalls := evs.map gcallOf
          skippedWL := evs.countP isWorkingLocation
          errors := (List.enumFrom i evs).filterMap (fun p => geminiErrorOf (gem p.1)) }
  | [], i => rfl
  | e :: rest, i => by
    have ih := processEvents_eq gem pf rest (i + 1)
    rcases Bool.eq_false_or_eq_true (e.eventType == some "workingLocation") with hwl | hwl <;>
      rcases Bool.eq_false_or_eq_true (pf i) with hpf | hpf <;>
        cases hgem : gem i <;>
          simp [processEvents, ih, List.enumFrom_cons, rowOf, patchOf, gcallOf,
            isWorkingLocation, geminiErrorOf, hwl, hpf, hgem]

/-- The patch calls the revert loop issues are exactly, in row order, one
restore call per row whose recorded previous color is not `"None"`,
independently of which patch calls fail. -/
theorem revertColors_eq (pf : Nat → Bool) :
    ∀ (rows : List Row) (i : Nat),
      revertColors pf rows i = rows.filterMap revertPatchOf
  | [], _ => rfl
  | r :: rest, i => by
    have ih := revertColors_eq pf rest (i + 1)
    rcases Bool.eq_false_or_eq_true (r.prevColorId == "None") with hne | hne <;>
      rcases Bool.eq_false_or_eq_true (pf i) with hpf | hpf <;>
        simp [revertColors, ih, revertPatchOf, bne, hne, hpf]

/-- A successful run over a nonempty event list with a valid date range:
the whole observable trace, in closed form. -/
theorem run_ok_eq (s e : Date) (evs : List Event) (gem : Nat → GeminiOutcome)
    (pf : Nat → Bool) (hd : dateLtb e s = false) (hne : evs ≠ []) :
    run s e (.ok evs) gem pf =
      { errors := (List.enum evs).filterMap (fun p => geminiErrorOf (gem p.1))
        warnings := []
        fetchCalls := [⟨"primary", start_iso s, end_iso e, true, "startTime"⟩]
        geminiCalls := evs.map gcallOf
        rows := (List.enum evs).map (rowOf gem)
        patches := (List.enum evs).filterMap (patchOf gem)
        skippedWL := evs.countP isWorkingLocation } := by
  have hempty : evs.isEmpty = false := by
    cases evs with
    | nil => exact absurd rfl hne
    | cons a l => rfl
  simp [run, hd, hempty, processEvents_eq, List.enum]

/-- Every value `category_to_color_id` returns is a key of the table. -/
theorem category_to_color_id_mem_keys (c : String) :
    category_to_color_id c ∈ CATEGORIES.map Prod.fst := by
  unfold category_to_color_id
  cases h : CATEGORIES.find? (fun p => pyLower p.2 == pyLower c) with
  | none => decide
  | some q => exact List.mem_map.mpr ⟨q, List.mem_of_find?_eq_some h, rfl⟩

/-! ### Claim theorems -/

/-- C1: Revert issues, for every stored row whose recorded previous color is
not `"None"`, exactly one patch call restoring that exact color (in row
order), and no patch call for rows whose previous color was recorded as
`"None"` — independently of which patch calls fail. -/
theorem c1_revert_restores_prior_colors (rows : List Row) (pf : Nat → Bool) (i : Nat) :
    revertColors pf rows i = rows.filterMap revertPatchOf ∧
    (∀ r : Row, r.prevColorId ≠ "None" →
      revertPatchOf r = some ⟨r.eventId, r.prevColorId⟩) ∧
    (∀ r : Row, r.prevColorId = "None" → revertPatchOf r = none) := by
  refine ⟨revertColors_eq pf rows i, fun r h => ?_, fun r h => ?_⟩
  · simp [revertPatchOf, h]
  · simp [revertPatchOf, h]

/-- Witness for C1 at a two-row table: one row with prior color `"7"` (one
restore call issued) and one with prior `"None"` (no call). -/
theorem c1_witness :
    revertColors (fun _ => true)
      [⟨"e1", "t", "d", none, none, "Team", "7", "No"⟩,
       ⟨"e2", "t", "d", none, none, "Team", "None", "No"⟩] 0 = [⟨"e1", "7"⟩] ∧
    revertPatchOf ⟨"e1", "t", "d", none, none, "Team", "7", "No"⟩ = some ⟨"e1", "7"⟩ ∧
    revertPatchOf ⟨"e2", "t", "d", none, none, "Team", "None", "No"⟩ = none := by
  have h := c1_revert_restores_prior_colors
    [⟨"e1", "t", "d", none, none, "Team", "7", "No"⟩,
     ⟨"e2", "t", "d", none, none, "Team", "None", "No"⟩] (fun _ => true) 0
  exact ⟨by rw [h.1]; decide,
         h.2.1 ⟨"e1", "t", "d", none, none, "Team", "7", "No"⟩ (by decide),
         h.2.2 ⟨"e2", "t", "d", none, none, "Team", "None", "No"⟩ (by decide)⟩

/-- C4: the category-to-color mapping is total and case-insensitive: labels
equal up to lowercasing map to the same code, any label matching no table
entry (up to case) maps to the default `"11"`, and the three case variants
of "team" all map to `"2"`. -/
theorem c4_color_mapping_total_case_insensitive :
    (∀ c₁ c₂ : String, pyLower c₁ = pyLower c₂ →
      category_to_color_id c₁ = category_to_color_id c₂) ∧
    (∀ c : String, (∀ p ∈ CATEGORIES, pyLower p.2 ≠ pyLower c) →
      category_to_color_id c = "11") ∧
    category_to_color_id "team" = "2" ∧
    category_to_color_id "Team" = "2" ∧
    category_to_color_id "TEAM" = "2" := by
  refine ⟨fun c₁ c₂ h => ?_, fun c h => ?_, by decide, by decide, by decide⟩
  · unfold category_to_color_id
    rw [show (fun p : String × String => pyLower p.2 == pyLower c₁)
          = (fun p : String × String => pyLower p.2 == pyLower c₂) from
        funext fun p => by rw [h]]
  · unfold category_to_color_id
    rw [List.find?_eq_none.mpr (fun x hx => by simpa using h x hx)]

/-- Witness for C4: case-insensitivity applied at `"TEAM"`/`"team"`, and the
default branch applied at the unknown label `"banana"`. -/
theorem c4_witness :
    pyLower "TEAM" = pyLower "team" ∧
    category_to_color_id "TEAM" = category_to_color_id "team" ∧
    (∀ p ∈ CATEGORIES, pyLower p.2 ≠ pyLower "banana") ∧
    category_to_color_id "banana" = "11" :=
  ⟨by decide, c4_color_mapping_total_case_insensitive.1 "TEAM" "team" (by decide),
   by decide, c4_color_mapping_total_case_insensitive.2.1 "banana" (by decide)⟩

/-- C6: with `start > end` the action reports the date error and issues no
fetch, categorizer or patch call at all; with `start = end` the range is
accepted and the single fetch call is issued. -/
theorem c6_invalid_range_rejected_before_network (s e : Date) (fetch : FetchOutcome)
    (gem : Nat → GeminiOutcome) (pf : Nat → Bool) :
    (dateLtb e s = true →
      run s e fetch gem pf =
        { errors := ["🚫 Start date must be before end date."], warnings := []
          fetchCalls := [], geminiCalls := [], rows := [], patches := []
          skippedWL := 0 }) ∧
    (s = e →
      (run s e fetch gem pf).fetchCalls =
        [⟨"primary", start_iso s, end_iso e, true, "startTime"⟩]) := by
  constructor
  · intro h
    simp [run, h]
  · intro h
    subst h
    have hlt : dateLtb s s = false := by simp [dateLtb]
    cases fetch with
    | httpError m => simp [run, hlt]
    | ok evs =>
      rcases Bool.eq_false_or_eq_true evs.isEmpty with he | he <;>
        simp [run, hlt, he]

/-- Witness for C6: a reversed range yields only the error, and an equal
start/end range issues the fetch with both bounds over the same date. -/
theorem c6_witness :
    run ⟨2024, 3, 5⟩ ⟨2024, 3, 4⟩ (.ok []) (fun _ => .ok "Team") (fun _ => false) =
      { errors := ["🚫 Start date must be before end date."], warnings := []
        fetchCalls := [], geminiCalls := [], rows := [], patches := []
        skippedWL := 0 } ∧
    (run ⟨2024, 3, 4⟩ ⟨2024, 3, 4⟩ (.ok []) (fun _ => .ok "Team")
        (fun _ => false)).fetchCalls =
      [⟨"primary", start_iso ⟨2024, 3, 4⟩, end_iso ⟨2024, 3, 4⟩, true, "startTime"⟩] :=
  ⟨(c6_invalid_range_rejected_before_network ⟨2024, 3, 5⟩ ⟨2024, 3, 4⟩ (.ok [])
      (fun _ => .ok "Team") (fun _ => false)).1 (by decide),
   (c6_invalid_range_rejected_before_network ⟨2024, 3, 4⟩ ⟨2024, 3, 4⟩ (.ok [])
      (fun _ => .ok "Team") (fun _ => false)).2 rfl⟩

/-- C7: the run's whole observable trace — rows, issued patch calls, surfaced
errors — is the same whichever patch calls fail, and the errors a run that
passes the date check surfaces are exactly the per-item Gemini-failure
messages; so a per-event patch failure is swallowed, the loop continues, and
no per-item patch error reaches the operator. -/
theorem c7_patch_failures_swallowed (s e : Date) (evs : List Event)
    (gem : Nat → GeminiOutcome) (pf pf' : Nat → Bool) :
    run s e (.ok evs) gem pf = run s e (.ok evs) gem pf' ∧
    (dateLtb e s = false → evs ≠ [] →
      (run s e (.ok evs) gem pf).errors =
        (List.enum evs).filterMap (fun p => geminiErrorOf (gem p.1))) := by
  constructor
  · rcases Bool.eq_false_or_eq_true (dateLtb e s) with h | h <;>
      rcases Bool.eq_false_or_eq_true evs.isEmpty with he | he <;>
        simp [run, h, he, processEvents_eq]
  · intro hd hne
    rw [run_ok_eq s e evs gem pf hd hne]

/-- Witness for C7: a one-event run with a failing Gemini call, where every
patch call fails, equals the same run where no patch call fails; the only
surfaced error is the Gemini one, so the patch failure produced none. -/
theorem c7_witness :
    run ⟨2024, 1, 1⟩ ⟨2024, 1, 2⟩
        (.ok [⟨"e1", some "Standup", none, ⟨none, some "2024-01-01"⟩,
               ⟨none, some "2024-01-01"⟩, none, none⟩])
        (fun _ => GeminiOutcome.err) (fun _ => true) =
      run ⟨2024, 1, 1⟩ ⟨2024, 1, 2⟩
        (.ok [⟨"e1", some "Standup", none, ⟨none, some "2024-01-01"⟩,
               ⟨none, some "2024-01-01"⟩, none, none⟩])
        (fun _ => GeminiOutcome.err) (fun _ => false) ∧
    (run ⟨2024, 1, 1⟩ ⟨2024, 1, 2⟩
        (.ok [⟨"e1", some "Standup", none, ⟨none, some "2024-01-01"⟩,
               ⟨none, some "2024-01-01"⟩, none, none⟩])
        (fun _ => GeminiOutcome.err) (fun _ => true)).errors =
      ["❌ Gemini API error"] := by
  have h := c7_patch_failures_swallowed ⟨2024, 1, 1⟩ ⟨2024, 1, 2⟩
    [⟨"e1", some "Standup", none, ⟨none, some "2024-01-01"⟩,
      ⟨none, some "2024-01-01"⟩, none, none⟩]
    (fun _ => GeminiOutcome.err) (fun _ => true) (fun _ => false)
  exact ⟨h.1, by rw [h.2 (by decide) (by decide)]; decide⟩

/-- C2: a successful run appends one row per fetched event in order; an event
tagged `workingLocation` gets a row marked skipped and contributes no patch
call, and every other event contributes exactly one patch call setting its
mapped color id. -/
theorem c2_working_location_skipped (s e : Date) (evs : List Event)
    (gem : Nat → GeminiOutcome) (pf : Nat → Bool)
    (hd : dateLtb e s = false) (hne : evs ≠ []) :
    (run s e (.ok evs) gem pf).rows = (List.enum evs).map (rowOf gem) ∧
    (run s e (.ok evs) gem pf).patches = (List.enum evs).filterMap (patchOf gem) ∧
    (∀ p : Nat × Event, isWorkingLocation p.2 = true →
      (rowOf gem p).skipped = "Yes" ∧ patchOf gem p = none) ∧
    (∀ p : Nat × Event, isWorkingLocation p.2 = false →
      (rowOf gem p).skipped = "No" ∧
      patchOf gem p =
        some ⟨p.2.id, category_to_color_id (categorize_with_gemini (gem p.1))⟩) := by
  refine ⟨?_, ?_, fun p hp => ⟨?_, ?_⟩, fun p hp => ⟨?_, ?_⟩⟩
  · rw [run_ok_eq s e evs gem pf hd hne]
  · rw [run_ok_eq s e evs gem pf hd hne]
  · simp only [rowOf, mkRow, isWorkingLocation] at hp ⊢
    rw [hp]
    rfl
  · simp [patchOf, hp]
  · simp only [rowOf, mkRow, isWorkingLocation] at hp ⊢
    rw [hp]
    rfl
  · simp [patchOf, hp]

/-- Witness for C2: one working-location event and one ordinary event; the
run patches only the ordinary one and marks the rows accordingly. -/
theorem c2_witness :
    (run ⟨2024, 1, 1⟩ ⟨2024, 1, 2⟩
        (.ok [⟨"w1", some "Home", none, ⟨none, some "2024-01-01"⟩,
               ⟨none, some "2024-01-01"⟩, some "workingLocation", none⟩,
              ⟨"e2", some "Sync", none, ⟨none, some "2024-01-01"⟩,
               ⟨none, some "2024-01-01"⟩, none, none⟩])
        (fun _ => .ok "Team") (fun _ => false)).patches = [⟨"e2", "2"⟩] ∧
    (run ⟨2024, 1, 1⟩ ⟨2024, 1, 2⟩
        (.ok [⟨"w1", some "Home", none, ⟨none, some "2024-01-01"⟩,
               ⟨none, some "2024-01-01"⟩, some "workingLocation", none⟩,
              ⟨"e2", some "Sync", none, ⟨none, some "2024-01-01"⟩,
               ⟨none, some "2024-01-01"⟩, none, none⟩])
        (fun _ => .ok "Team") (fun _ => false)).rows.map Row.skipped =
      ["Yes", "No"] := by
  have h := c2_working_location_skipped ⟨2024, 1, 1⟩ ⟨2024, 1, 2⟩
    [⟨"w1", some "Home", none, ⟨none, some "2024-01-01"⟩,
      ⟨none, some "2024-01-01"⟩, some "workingLocation", none⟩,
     ⟨"e2", some "Sync", none, ⟨none, some "2024-01-01"⟩,
      ⟨none, some "2024-01-01"⟩, none, none⟩]
    (fun _ => .ok "Team") (fun _ => false) (by decide) (by decide)
  exact ⟨by rw [h.2.1]; decide, by rw [h.1]; decide⟩

/-- C3: when the Gemini call for the event at index `i` raises, the
categorizer returns the fallback `"Other"`, its mapped color is the default
`"11"`, that event's row records category `"Other"`, the run still produces
one row per event, and (for a non-working-location event) a patch call with
color `"11"` is still issued for it. -/
theorem c3_gemini_failure_fallback (s e : Date) (evs : List Event)
    (gem : Nat → GeminiOutcome) (pf : Nat → Bool) (i : Nat)
    (hi : i < evs.length) (hd : dateLtb e s = false) (hg : gem i = .err) :
    categorize_with_gemini (gem i) = "Other" ∧
    category_to_color_id (categorize_with_gemini (gem i)) = "11" ∧
    (run s e (.ok evs) gem pf).rows.length = evs.length ∧
    (∀ h2 : i < (run s e (.ok evs) gem pf).rows.length,
      ((run s e (.ok evs) gem pf).rows.get ⟨i, h2⟩).category = "Other") ∧
    (isWorkingLocation (evs.get ⟨i, hi⟩) = false →
      PatchCall.mk (evs.get ⟨i, hi⟩).id "11" ∈ (run s e (.ok evs) gem pf).patches) := by
  have hne : evs ≠ [] := by
    intro h
    rw [h] at hi
    exact absurd hi (by simp)
  have hrun := run_ok_eq s e evs gem pf hd hne
  have hlen : (run s e (.ok evs) gem pf).rows.length = evs.length := by
    rw [hrun]
    simp
  have hco : category_to_color_id "Other" = "11" := by decide
  refine ⟨by rw [hg]; rfl, by rw [hg]; rfl, hlen, fun h2 => ?_, fun hwl => ?_⟩
  · simp only [List.get_eq_getElem, hrun, List.getElem_map, List.getElem_enum]
    simp [rowOf, mkRow, hg, categorize_with_gemini]
  · simp only [List.get_eq_getElem] at hwl
    rw [hrun]
    simp only [List.mem_filterMap]
    refine ⟨(i, evs[i]), ?_, ?_⟩
    · have hlt : i < (List.enum evs).length := by simpa using hi
      have henum : (List.enum evs).get ⟨i, hlt⟩ = (i, evs[i]) := by
        simp [List.get_eq_getElem, List.getElem_enum]
      rw [← henum]
      exact List.get_mem (List.enum evs) i hlt
    · simp [patchOf, hwl, hg, categorize_with_gemini, hco]

/-- Witness for C3: a two-event run whose second Gemini call raises; both
rows are present, the second row's category is `"Other"`, and a patch with
the default color `"11"` is issued for the second event. -/
theorem c3_witness :
    (run ⟨2024, 1, 1⟩ ⟨2024, 1, 2⟩
        (.ok [⟨"e1", some "Sync", none, ⟨none, some "2024-01-01"⟩,
               ⟨none, some "2024-01-01"⟩, none, none⟩,
              ⟨"e2", some "Mystery", none, ⟨none, some "2024-01-01"⟩,
               ⟨none, some "2024-01-01"⟩, none, none⟩])
        (fun i => if i == 0 then .ok "Team" else .err) (fun _ => false)).rows.length = 2 ∧
    ((run ⟨2024, 1, 1⟩ ⟨2024, 1, 2⟩
        (.ok [⟨"e1", some "Sync", none, ⟨none, some "2024-01-01"⟩,
               ⟨none, some "2024-01-01"⟩, none, none⟩,
              ⟨"e2", some "Mystery", none, ⟨none, some "2024-01-01"⟩,
               ⟨none, some "2024-01-01"⟩, none, none⟩])
        (fun i => if i == 0 then .ok "Team" else .err)
        (fun _ => false)).rows.get ⟨1, by rw [(by decide : (run ⟨2024, 1, 1⟩ ⟨2024, 1, 2⟩
          (.ok [⟨"e1", some "Sync", none, ⟨none, some "2024-01-01"⟩,
                 ⟨none, some "2024-01-01"⟩, none, none⟩,
                ⟨"e2", some "Mystery", none, ⟨none, some "2024-01-01"⟩,
                 ⟨none, some "2024-01-01"⟩, none, none⟩])
          (fun i => if i == 0 then .ok "Team" else .err)
          (fun _ => false)).rows.length = 2)]; decide⟩).category = "Other" ∧
    PatchCall.mk "e2" "11" ∈ (run ⟨2024, 1, 1⟩ ⟨2024, 1, 2⟩
        (.ok [⟨"e1", some "Sync", none, ⟨none, some "2024-01-01"⟩,
               ⟨none, some "2024-01-01"⟩, none, none⟩,
              ⟨"e2", some "Mystery", none, ⟨none, some "2024-01-01"⟩,
               ⟨none, some "2024-01-01"⟩, none, none⟩])
        (fun i => if i == 0 then .ok "Team" else .err) (fun _ => false)).patches := by
  have h := c3_gemini_failure_fallback ⟨2024, 1, 1⟩ ⟨2024, 1, 2⟩
    [⟨"e1", some "Sync", none, ⟨none, some "2024-01-01"⟩,
      ⟨none, some "2024-01-01"⟩, none, none⟩,
     ⟨"e2", some "Mystery", none, ⟨none, some "2024-01-01"⟩,
      ⟨none, some "2024-01-01"⟩, none, none⟩]
    (fun i => if i == 0 then .ok "Team" else .err) (fun _ => false) 1
    (by decide) (by decide) (by decide)
  exact ⟨h.2.2.1, h.2.2.2.1 _, by simpa using h.2.2.2.2 (by decide)⟩

/-- C9: every value of `category_to_color_id` is a key of the five-entry
table, the keys are exactly `"1","2","5","6","11"`, and hence the color id
of every patch call any run issues lies in that set. -/
theorem c9_patched_colors_in_table :
    (∀ c : String, category_to_color_id c ∈ CATEGORIES.map Prod.fst) ∧
    CATEGORIES.map Prod.fst = ["1", "2", "5", "6", "11"] ∧
    (∀ (s e : Date) (fetch : FetchOutcome) (gem : Nat → GeminiOutcome)
       (pf : Nat → Bool) (p : PatchCall),
      p ∈ (run s e fetch gem pf).patches →
      p.colorId ∈ CATEGORIES.map Prod.fst) := by
  refine ⟨category_to_color_id_mem_keys, rfl, fun s e fetch gem pf p hp => ?_⟩
  rcases Bool.eq_false_or_eq_true (dateLtb e s) with h | h
  · simp [run, h] at hp
  · cases fetch with
    | httpError m => simp [run, h] at hp
    | ok evs =>
      rcases Bool.eq_false_or_eq_true evs.isEmpty with he | he
      · simp [run, h, he] at hp
      · have hne : evs ≠ [] := by
          intro hnil
          rw [hnil] at he
          exact absurd he (by simp)
        rw [run_ok_eq s e evs gem pf h hne] at hp
        simp only [List.mem_filterMap] at hp
        obtain ⟨a, _, ha⟩ := hp
        rcases Bool.eq_false_or_eq_true (isWorkingLocation a.2) with hw | hw
        · simp [patchOf, hw] at ha
        · simp only [patchOf, hw, Bool.false_eq_true, if_false,
            Option.some.injEq] at ha
          rw [← ha]
          exact category_to_color_id_mem_keys _

/-- Witness for C9: the patch issued for a one-event run carries color `"2"`,
which the theorem places among the table keys. -/
theorem c9_witness :
    PatchCall.mk "e1" "2" ∈ (run ⟨2024, 1, 1⟩ ⟨2024, 1, 2⟩
        (.ok [⟨"e1", some "Sync", none, ⟨none, some "2024-01-01"⟩,
               ⟨none, some "2024-01-01"⟩, none, none⟩])
        (fun _ => .ok "Team") (fun _ => false)).patches ∧
    "2" ∈ CATEGORIES.map Prod.fst := by
  refine ⟨by decide, ?_⟩
  exact c9_patched_colors_in_table.2.2 ⟨2024, 1, 1⟩ ⟨2024, 1, 2⟩
    (.ok [⟨"e1", some "Sync", none, ⟨none, some "2024-01-01"⟩,
           ⟨none, some "2024-01-01"⟩, none, none⟩])
    (fun _ => .ok "Team") (fun _ => false) ⟨"e1", "2"⟩ (by decide)

/-- The end-of-range bound the spec's sentence names: the end date at time
23:59:59.999 (999 milliseconds), serialized like the code's bound. Used only
to compare the spec's wording with the code's actual bound. -/
def specEndBound (d : Date) : String :=
  combineIsoformat d ⟨23, 59, 59, 999000⟩ ++ "Z"

/-- Counterexample to C5 as stated: the upper bound the code passes for end
date 2024-01-03 is `23:59:59.999999`, not the claimed `23:59:59.999`. -/
theorem c5_counterexample :
    (run ⟨2024, 1, 2⟩ ⟨2024, 1, 3⟩ (.ok []) (fun _ => .ok "Team")
        (fun _ => false)).fetchCalls.map FetchParams.timeMax =
      [end_iso ⟨2024, 1, 3⟩] ∧
    end_iso ⟨2024, 1, 3⟩ = "2024-01-03T23:59:59.999999Z" ∧
    specEndBound ⟨2024, 1, 3⟩ = "2024-01-03T23:59:59.999000Z" ∧
    end_iso ⟨2024, 1, 3⟩ ≠ specEndBound ⟨2024, 1, 3⟩ := by
  refine ⟨by decide, by decide, by decide, by decide⟩

/-- C5 (amended): for every run that passes the date check, the single fetch
call's bounds are the start date at 00:00:00 and the end date at
23:59:59.999999, each serialized in ISO form with a `Z` suffix. -/
theorem c5_fetch_bounds (s e : Date) (fetch : FetchOutcome)
    (gem : Nat → GeminiOutcome) (pf : Nat → Bool) (hd : dateLtb e s = false) :
    ∀ fp ∈ (run s e fetch gem pf).fetchCalls,
      fp.timeMin = combineIsoformat s Time.pyMin ++ "Z" ∧
      fp.timeMax = combineIsoformat e Time.pyMax ++ "Z" ∧
      timeIsoformat Time.pyMin = "00:00:00" ∧
      timeIsoformat Time.pyMax = "23:59:59.999999" := by
  intro fp hfp
  have hgoal : fp = ⟨"primary", start_iso s, end_iso e, true, "startTime"⟩ := by
    cases fetch with
    | httpError m => simpa [run, hd] using hfp
    | ok evs =>
      rcases Bool.eq_false_or_eq_true evs.isEmpty with he | he <;>
        simpa [run, hd, he] using hfp
  subst hgoal
  exact ⟨rfl, rfl, by decide, by decide⟩

/-- Witness for C5 (amended) at a concrete valid range. -/
theorem c5_witness :
    (run ⟨2024, 1, 2⟩ ⟨2024, 1, 3⟩ (.ok []) (fun _ => .ok "Team")
        (fun _ => false)).fetchCalls =
      [⟨"primary", "2024-01-02T00:00:00Z", "2024-01-03T23:59:59.999999Z",
        true, "startTime"⟩] ∧
    FetchParams.timeMax ⟨"primary", "2024-01-02T00:00:00Z",
        "2024-01-03T23:59:59.999999Z", true, "startTime"⟩ =
      combineIsoformat ⟨2024, 1, 3⟩ Time.pyMax ++ "Z" := by
  refine ⟨by decide, ?_⟩
  exact (c5_fetch_bounds ⟨2024, 1, 2⟩ ⟨2024, 1, 3⟩ (.ok []) (fun _ => .ok "Team")
    (fun _ => false) (by decide)
    ⟨"primary", "2024-01-02T00:00:00Z", "2024-01-03T23:59:59.999999Z",
      true, "startTime"⟩ (by decide)).2.1

/-- C8: the worked example — two ordinary events titled "Weekly team sync"
and "Lunch with Alex" with empty descriptions, the classifier returning
"Team" then "Personal" — yields rows categorized Team/Personal mapping to
colors `"2"` and `"6"`, and exactly those two patch calls. -/
theorem c8_example_run :
    (run ⟨2025, 7, 1⟩ ⟨2025, 7, 7⟩
        (.ok [⟨"ev1", some "Weekly team sync", some "",
               ⟨some "2025-07-01T10:00:00Z", none⟩,
               ⟨some "2025-07-01T10:30:00Z", none⟩, none, none⟩,
              ⟨"ev2", some "Lunch with Alex", some "",
               ⟨some "2025-07-02T12:00:00Z", none⟩,
               ⟨some "2025-07-02T13:00:00Z", none⟩, none, none⟩])
        (fun i => if i == 0 then .ok "Team" else .ok "Personal")
        (fun _ => false)).rows.map Row.category = ["Team", "Personal"] ∧
    ["Team", "Personal"].map category_to_color_id = ["2", "6"] ∧
    (run ⟨2025, 7, 1⟩ ⟨2025, 7, 7⟩
        (.ok [⟨"ev1", some "Weekly team sync", some "",
               ⟨some "2025-07-01T10:00:00Z", none⟩,
               ⟨some "2025-07-01T10:30:00Z", none⟩, none, none⟩,
              ⟨"ev2", some "Lunch with Alex", some "",
               ⟨some "2025-07-02T12:00:00Z", none⟩,
               ⟨some "2025-07-02T13:00:00Z", none⟩, none, none⟩])
        (fun i => if i == 0 then .ok "Team" else .ok "Personal")
        (fun _ => false)).patches = [⟨"ev1", "2"⟩, ⟨"ev2", "6"⟩] ∧
    (run ⟨2025, 7, 1⟩ ⟨2025, 7, 7⟩
        (.ok [⟨"ev1", some "Weekly team sync", some "",
               ⟨some "2025-07-01T10:00:00Z", none⟩,
               ⟨some "2025-07-01T10:30:00Z", none⟩, none, none⟩,
              ⟨"ev2", some "Lunch with Alex", some "",
               ⟨some "2025-07-02T12:00:00Z", none⟩,
               ⟨some "2025-07-02T13:00:00Z", none⟩, none, none⟩])
        (fun i => if i == 0 then .ok "Team" else .ok "Personal")
        (fun _ => false)).patches.length = 2 := by
  refine ⟨by decide, by decide, by decide, by decide⟩

/-- C10: a successful run never fails on missing optional fields: each row's
title and description are the stripped `summary`/`description` defaulting to
the empty string, the categorizer receives the same defaults, and a missing
prior color is recorded as the literal string `"None"`. -/
theorem c10_missing_fields_defaulted (s e : Date) (evs : List Event)
    (gem : Nat → GeminiOutcome) (pf : Nat → Bool) (i : Nat)
    (hi : i < evs.length) (hd : dateLtb e s = false) :
    (run s e (.ok evs) gem pf).rows.length = evs.length ∧
    (run s e (.ok evs) gem pf).geminiCalls.length = evs.length ∧
    ∀ (h1 : i < (run s e (.ok evs) gem pf).rows.length)
      (h2 : i < (run s e (.ok evs) gem pf).geminiCalls.length),
      ((run s e (.ok evs) gem pf).rows.get ⟨i, h1⟩).title =
        pyStrip ((evs.get ⟨i, hi⟩).summary.getD "") ∧
      ((run s e (.ok evs) gem pf).rows.get ⟨i, h1⟩).description =
        pyStrip ((evs.get ⟨i, hi⟩).description.getD "") ∧
      ((run s e (.ok evs) gem pf).rows.get ⟨i, h1⟩).prevColorId =
        (evs.get ⟨i, hi⟩).colorId.getD "None" ∧
      (run s e (.ok evs) gem pf).geminiCalls.get ⟨i, h2⟩ =
        (pyStrip ((evs.get ⟨i, hi⟩).summary.getD ""),
         pyStrip ((evs.get ⟨i, hi⟩).description.getD "")) ∧
      ((evs.get ⟨i, hi⟩).summary = none →
        ((run s e (.ok evs) gem pf).rows.get ⟨i, h1⟩).title = "") ∧
      ((evs.get ⟨i, hi⟩).description = none →
        ((run s e (.ok evs) gem pf).rows.get ⟨i, h1⟩).description = "") ∧
      ((evs.get ⟨i, hi⟩).colorId = none →
        ((run s e (.ok evs) gem pf).rows.get ⟨i, h1⟩).prevColorId = "None") := by
  have hne : evs ≠ [] := by
    intro h
    rw [h] at hi
    exact absurd hi (by simp)
  have hrun := run_ok_eq s e evs gem pf hd hne
  refine ⟨by rw [hrun]; simp, by rw [hrun]; simp, fun h1 h2 => ?_⟩
  simp only [List.get_eq_getElem, hrun, List.getElem_map, List.getElem_enum]
  refine ⟨rfl, rfl, rfl, rfl, fun hs => ?_, fun hdsc => ?_, fun hc => ?_⟩
  · simp [rowOf, mkRow, hs, pyStrip]
  · simp [rowOf, mkRow, hdsc, pyStrip]
  · simp [rowOf, mkRow, hc]

/-- Witness for C10: an event with no summary, no description and no prior
color yields a row with empty title and description and prior color
`"None"`. -/
theorem c10_witness :
    ((run ⟨2024, 1, 1⟩ ⟨2024, 1, 2⟩
        (.ok [⟨"e1", none, none, ⟨none, some "2024-01-01"⟩,
               ⟨none, some "2024-01-01"⟩, none, none⟩])
        (fun _ => .ok "Team") (fun _ => false)).rows.get
      ⟨0, by decide⟩).title = "" ∧
    ((run ⟨2024, 1, 1⟩ ⟨2024, 1, 2⟩
        (.ok [⟨"e1", none, none, ⟨none, some "2024-01-01"⟩,
               ⟨none, some "2024-01-01"⟩, none, none⟩])
        (fun _ => .ok "Team") (fun _ => false)).rows.get
      ⟨0, by decide⟩).description = "" ∧
    ((run ⟨2024, 1, 1⟩ ⟨2024, 1, 2⟩
        (.ok [⟨"e1", none, none, ⟨none, some "2024-01-01"⟩,
               ⟨none, some "2024-01-01"⟩, none, none⟩])
        (fun _ => .ok "Team") (fun _ => false)).rows.get
      ⟨0, by decide⟩).prevColorId = "None" := by
  have h := c10_missing_fields_defaulted ⟨2024, 1, 1⟩ ⟨2024, 1, 2⟩
    [⟨"e1", none, none, ⟨none, some "2024-01-01"⟩,
      ⟨none, some "2024-01-01"⟩, none, none⟩]
    (fun _ => .ok "Team") (fun _ => false) 0 (by decide) (by decide)
  obtain ⟨hl, hg, hrest⟩ := h
  have h0 := hrest (by decide) (by decide)
  exact ⟨h0.2.2.2.2.1 rfl, h0.2.2.2.2.2.1 rfl, h0.2.2.2.2.2.2 rfl⟩

end CommendaCC
